import Mathlib

/-!
Shallow embedding of `src/app.py` (violet-archive): a Flask habit tracker
backed by SQLite. Tables are lists of rows; SQL statements become list
operations; request handlers become functions on a `DB` state. A handler
that can hit an uncaught `sqlite3` exception returns `Except String DB`
with `.error` exactly where the Python raises.

Conventions:
- SQLite DATE values are modelled as `Int` (days since an arbitrary epoch);
  `date.today()` becomes an explicit `today : Int` parameter and
  `timedelta(days=1)` is `1`.
- SQLite REAL (`hours`) is modelled as `Rat`; the only operations the code
  performs on it are Python truthiness (`hours != 0`) and summation.
- `request.form.get(k)` yields `Option String`; `request.form.get(k, type=int)`
  / `type=float` yield `Option Int` / `Option Rat` (werkzeug returns `None`
  when the field is absent or unparsable). Numeric strings bound into an
  INTEGER column acquire integer affinity in SQLite, so the `rating` and
  `media_id` form fields, which the code passes to SQL as raw strings, are
  modelled by the integer a numeric submission stores/compares as.
- AUTOINCREMENT ids are modelled by `nextId` (one more than the maximum id
  in the table), which preserves the property that a fresh id never
  collides with an existing row.
-/

namespace VioletArchive

/-- Row of the `users` table (app.py lines 49-54). -/
structure User where
  id : Int
  username : String
  password_hash : String
  deriving Repr, DecidableEq

/-- Row of the `habits` table (app.py lines 56-62): UNIQUE(user_id, name). -/
structure Habit where
  id : Int
  user_id : Int
  name : String
  deriving Repr, DecidableEq

/-- Row of the `habit_entries` table (app.py lines 64-74). -/
structure HabitEntry where
  id : Int
  user_id : Int
  habit_id : Int
  entry_date : Int
  hours : Rat
  note : String
  sticker : Option String
  deriving Repr, DecidableEq

/-- Row of the `reflections` table (app.py lines 76-85): UNIQUE(user_id, entry_date),
`mood` is NOT NULL, the three text fields are nullable. -/
structure Reflection where
  id : Int
  user_id : Int
  entry_date : Int
  reflection_text : Option String
  win : Option String
  improvement : Option String
  mood : String
  deriving Repr, DecidableEq

/-- Row of the `rewards` table (app.py lines 87-93): `name`, `requirement_type`,
`requirement_value` are NOT NULL; `unlocked` defaults to 0. -/
structure Reward where
  id : Int
  name : String
  requirement_type : String
  requirement_value : Int
  unlocked : Int
  deriving Repr, DecidableEq

/-- Row of the `media` table (app.py lines 95-101): `title`, `type`, `rating`
NOT NULL, `review` nullable. The `type` column is called `media_type` here
because `type` is reserved in Lean. -/
structure Media where
  id : Int
  title : String
  media_type : String
  rating : Int
  review : Option String
  deriving Repr, DecidableEq

/-- The whole SQLite database state. -/
structure DB where
  users : List User
  habits : List Habit
  habit_entries : List HabitEntry
  reflections : List Reflection
  rewards : List Reward
  media : List Media
  deriving Repr, DecidableEq

/-- The empty database produced by `init_db` on a fresh file. -/
def emptyDB : DB := ⟨[], [], [], [], [], []⟩

/-- Fresh AUTOINCREMENT id: one more than the largest id present. -/
def nextId (ids : List Int) : Int := ids.foldr max 0 + 1

/-- The Python method `str.strip()` with no argument: remove leading and trailing
whitespace. Implemented structurally on the character list (rather than
through `String.trim`) so that it evaluates on concrete inputs. -/
def pyStrip (s : String) : String :=
  ⟨((s.data.dropWhile Char.isWhitespace).reverse.dropWhile
      Char.isWhitespace).reverse⟩

/-- The fields of `request.form` read by the `dashboard` POST handler
(app.py lines 196-248). Absent fields are `none`. -/
structure Form where
  action : Option String
  habit_name : Option String
  habit_id : Option Int
  hours : Option Rat
  note : Option String
  sticker : Option String
  reward_name : Option String
  requirement_type : Option String
  requirement_value : Option Int
  reward_id : Option Int
  deriving Repr, DecidableEq

/-- A `Form` with every field absent; concrete requests override the
fields they submit. -/
def Form.empty : Form := ⟨none, none, none, none, none, none, none, none, none, none⟩

/-- Branch `action == "add_habit"` (app.py lines 199-208): strip the name,
skip if empty, INSERT, and swallow the UNIQUE(user_id, name) IntegrityError
(the only constraint the insert can violate). -/
def add_habit_action (db : DB) (user_id : Int) (f : Form) : DB :=
  let name := pyStrip (f.habit_name.getD "")
  if name ≠ "" then
    if db.habits.any fun h => h.user_id == user_id && h.name == name then db
    else { db with habits :=
      db.habits ++ [⟨nextId (db.habits.map Habit.id), user_id, name⟩] }
  else db

/-- Branch `action == "delete_habit"` (app.py lines 210-220): when the
habit_id form value is truthy, DELETE the entries with that habit_id and
this user_id, then DELETE the habit row with that id and this user_id. -/
def delete_habit_action (db : DB) (user_id : Int) (f : Form) : DB :=
  match f.habit_id with
  | some habit_id =>
    if habit_id ≠ 0 then
      { db with
        habit_entries := db.habit_entries.filter fun e =>
          !(e.habit_id == habit_id && e.user_id == user_id),
        habits := db.habits.filter fun h =>
          !(h.id == habit_id && h.user_id == user_id) }
    else db
  | none => db

/-- Branch `action == "add_entry"` (app.py lines 222-231): `if habit_id and
hours:` (Python truthiness: `None` and `0` are falsy) then INSERT a row
dated today. No check that the habit exists or is owned by the user. -/
def add_entry_action (db : DB) (user_id : Int) (today : Int) (f : Form) : DB :=
  match f.habit_id, f.hours with
  | some habit_id, some hours =>
    if habit_id ≠ 0 ∧ hours ≠ 0 then
      { db with habit_entries := db.habit_entries ++
        [⟨nextId (db.habit_entries.map HabitEntry.id), user_id, habit_id,
          today, hours, f.note.getD "", f.sticker⟩] }
    else db
  | _, _ => db

/-- Branch `action == "add_reward"` (app.py lines 233-240): INSERT with no
validation and no try/except; a missing `reward_name`, `requirement_type`
or `requirement_value` binds NULL into a NOT NULL column and the resulting
`sqlite3.IntegrityError` propagates out of the handler. -/
def add_reward_action (db : DB) (f : Form) : Except String DB :=
  match f.reward_name, f.requirement_type, f.requirement_value with
  | some n, some t, some v =>
    .ok { db with rewards :=
      db.rewards ++ [⟨nextId (db.rewards.map Reward.id), n, t, v, 0⟩] }
  | _, _, _ => .error "NOT NULL constraint failed: rewards"

/-- Branch `action == "unlock_reward"` (app.py lines 242-244):
`UPDATE rewards SET unlocked = 1 WHERE id = ?` — no user scoping; a `none`
reward_id binds NULL and matches no row. -/
def unlock_reward_action (db : DB) (f : Form) : DB :=
  { db with rewards := db.rewards.map fun r =>
      if f.reward_id = some r.id then { r with unlocked := 1 } else r }

/-- Branch `action == "delete_reward"` (app.py lines 246-248):
`DELETE FROM rewards WHERE id = ?` — no user scoping. -/
def delete_reward_action (db : DB) (f : Form) : DB :=
  { db with rewards := db.rewards.filter fun r => !(f.reward_id == some r.id) }

/-- The POST part of `dashboard` (app.py lines 196-250): dispatch on the
`action` form field; an unknown or absent action falls through to the
commit with the database unchanged. Only `add_reward` can raise. -/
def dashboard_post (db : DB) (user_id : Int) (today : Int) (f : Form) :
    Except String DB :=
  if f.action = some "add_habit" then .ok (add_habit_action db user_id f)
  else if f.action = some "delete_habit" then .ok (delete_habit_action db user_id f)
  else if f.action = some "add_entry" then .ok (add_entry_action db user_id today f)
  else if f.action = some "add_reward" then add_reward_action db f
  else if f.action = some "unlock_reward" then .ok (unlock_reward_action db f)
  else if f.action = some "delete_reward" then .ok (delete_reward_action db f)
  else .ok db

/-- The per-habit daily total computed on the dashboard (app.py lines
260-267): sum of `hours` over entries with this habit_id, this user_id and
this date. -/
def daily_total (entries : List HabitEntry) (user_id habit_id d : Int) : Rat :=
  ((entries.filter fun e =>
    e.habit_id == habit_id && e.user_id == user_id && e.entry_date == d).map
      HabitEntry.hours).sum

/-- The lookup made by the streak loop (app.py lines 272-275): `SELECT 1 FROM
habit_entries WHERE user_id = ? AND entry_date = ? LIMIT 1` is non-empty. -/
def hasEntry (entries : List HabitEntry) (user_id d : Int) : Bool :=
  entries.any fun e => e.user_id == user_id && e.entry_date == d

/-- The streak `while True` loop (app.py lines 269-280) with explicit fuel:
starting at date `d`, count consecutive dates with an entry, stepping back
one day per iteration, stopping at the first date without one. -/
def streakAux (entries : List HabitEntry) (user_id : Int) :
    Nat → Int → Nat
  | 0, _ => 0
  | fuel + 1, d =>
    if hasEntry entries user_id d then
      streakAux entries user_id fuel (d - 1) + 1
    else 0

/-- The distinct entry dates of a user, an upper bound on how far the
streak loop can run. -/
def userDates (entries : List HabitEntry) (user_id : Int) : List Int :=
  ((entries.filter fun e => e.user_id == user_id).map HabitEntry.entry_date).dedup

/-- The streak value the dashboard displays. The while loop in the source
is unbounded; `streak_loop_stable` below proves that
`(userDates entries user_id).length + 1` iterations always suffice, so this
fuelled version computes the result of the loop. -/
def streak (entries : List HabitEntry) (user_id today : Int) : Nat :=
  streakAux entries user_id ((userDates entries user_id).length + 1) today

/-- The rewards list rendered by the dashboard (app.py line 289):
`SELECT * FROM rewards ORDER BY unlocked, id`. -/
def dashboard_rewards (db : DB) : List Reward :=
  db.rewards.mergeSort fun a b =>
    decide (a.unlocked < b.unlocked ∨ (a.unlocked = b.unlocked ∧ a.id ≤ b.id))

/-- The POST part of `reflection` (app.py lines 311-328): read the four
fields, then INSERT .. ON CONFLICT(user_id, entry_date) DO UPDATE SET all
four fields. `mood` is NOT NULL, so a request without a mood field binds
NULL and raises `sqlite3.IntegrityError` on either path; the three text
fields are nullable. -/
def reflection_post (db : DB) (user_id today : Int)
    (reflection_text win improvement mood : Option String) :
    Except String DB :=
  match mood with
  | none => .error "NOT NULL constraint failed: reflections.mood"
  | some m =>
    if db.reflections.any fun r => r.user_id == user_id && r.entry_date == today then
      .ok { db with reflections := db.reflections.map fun r =>
        if r.user_id == user_id && r.entry_date == today then
          { r with reflection_text := reflection_text, win := win,
                   improvement := improvement, mood := m }
        else r }
    else
      .ok { db with reflections := db.reflections ++
        [⟨nextId (db.reflections.map Reflection.id), user_id, today,
          reflection_text, win, improvement, m⟩] }

/-- The fields of `request.form` read by the `books_movies` POST handler
(app.py lines 344-359). -/
structure MediaForm where
  action : Option String
  title : Option String
  media_type : Option String
  rating : Option Int
  review : Option String
  media_id : Option Int
  deriving Repr, DecidableEq

/-- A `MediaForm` with every field absent. -/
def MediaForm.empty : MediaForm := ⟨none, none, none, none, none, none⟩

/-- The POST part of `books_movies` (app.py lines 344-362). `add_media`
INSERTs the form values verbatim — no range check or clamp on `rating`; a
missing `title`, `type` or `rating` binds NULL into a NOT NULL column and
the IntegrityError propagates. `delete_media` deletes by id with no user
scoping. -/
def media_post (db : DB) (f : MediaForm) : Except String DB :=
  if f.action = some "add_media" then
    match f.title, f.media_type, f.rating with
    | some t, some ty, some r =>
      .ok { db with media :=
        db.media ++ [⟨nextId (db.media.map Media.id), t, ty, r, f.review⟩] }
    | _, _, _ => .error "NOT NULL constraint failed: media"
  else if f.action = some "delete_media" then
    .ok { db with media := db.media.filter fun m => !(f.media_id == some m.id) }
  else .ok db

/-- The rows of the `reflections` table for one (user, date) key, i.e. the
result of the SELECT on app.py lines 330-333. -/
def reflections_for (db : DB) (user_id d : Int) : List Reflection :=
  db.reflections.filter fun r => r.user_id == user_id && r.entry_date == d

/-- The fields of `request.form` read by the `reflection` POST handler
(app.py lines 312-315). -/
structure RefForm where
  reflection_text : Option String
  win : Option String
  improvement : Option String
  mood : Option String
  deriving Repr, DecidableEq

/-- A sequence of `reflection` POSTs by the same user on the same day,
stopping at the first uncaught error. -/
def reflection_posts (db : DB) (user_id today : Int) :
    List RefForm → Except String DB
  | [] => .ok db
  | f :: fs =>
    match reflection_post db user_id today f.reflection_text f.win
        f.improvement f.mood with
    | .ok db2 => reflection_posts db2 user_id today fs
    | .error e => .error e

/-- A database in which habit 1 is owned by user 1 while user 2 has logged
an entry against it — reachable because `add_entry` checks neither
existence nor ownership of the habit id it is given. -/
def crossOwnedDB : DB :=
  { emptyDB with
    habits := [⟨1, 1, "read"⟩]
    habit_entries := [⟨1, 2, 1, 0, 1, "", none⟩] }

/-- The function `generate_password_hash` is werkzeug library code, external to this
repository; no claim depends on hash values, only on the control
flow of signup, so it is modelled as an injective placeholder. -/
def generate_password_hash (password : String) : String := password

/-- The POST part of `signup` (app.py lines 124-149): empty username (after
strip) or empty password flashes a message; a duplicate username raises
IntegrityError on the UNIQUE column, which is caught and turned into a
message; otherwise the user row is inserted. Returns the new database and
the flash message, if any. -/
def signup (db : DB) (username password : String) : DB × Option String :=
  let username := pyStrip username
  if username = "" ∨ password = "" then
    (db, some "Username and password required.")
  else if db.users.any fun u => u.username == username then
    (db, some "Username already exists.")
  else
    ({ db with users := db.users ++
      [⟨nextId (db.users.map User.id), username, generate_password_hash password⟩] },
     none)

/-! ### Dispatch lemmas for the dashboard POST handler -/

theorem dashboard_post_add_habit (db : DB) (u today : Int) (f : Form)
    (h : f.action = some "add_habit") :
    dashboard_post db u today f = .ok (add_habit_action db u f) := by
  rw [dashboard_post, h]
  rfl

theorem dashboard_post_delete_habit (db : DB) (u today : Int) (f : Form)
    (h : f.action = some "delete_habit") :
    dashboard_post db u today f = .ok (delete_habit_action db u f) := by
  rw [dashboard_post, h]
  rfl

theorem dashboard_post_add_entry (db : DB) (u today : Int) (f : Form)
    (h : f.action = some "add_entry") :
    dashboard_post db u today f = .ok (add_entry_action db u today f) := by
  rw [dashboard_post, h]
  rfl

theorem dashboard_post_add_reward (db : DB) (u today : Int) (f : Form)
    (h : f.action = some "add_reward") :
    dashboard_post db u today f = add_reward_action db f := by
  rw [dashboard_post, h]
  rfl

theorem dashboard_post_unlock_reward (db : DB) (u today : Int) (f : Form)
    (h : f.action = some "unlock_reward") :
    dashboard_post db u today f = .ok (unlock_reward_action db f) := by
  rw [dashboard_post, h]
  rfl

theorem dashboard_post_delete_reward (db : DB) (u today : Int) (f : Form)
    (h : f.action = some "delete_reward") :
    dashboard_post db u today f = .ok (delete_reward_action db f) := by
  rw [dashboard_post, h]
  rfl

/-! ### C1: media ratings are stored without validation -/

/-- C1 counterexample: submitting `add_media` with rating 7 (outside [1,5])
inserts a row whose stored rating is 7 — the write is neither rejected nor
clamped into [1,5]. -/
theorem add_media_rating_seven_stored :
    ((media_post emptyDB { MediaForm.empty with
        action := some "add_media"
        title := some "Dune"
        media_type := some "book"
        rating := some 7 }).toOption.map fun d => d.media.map Media.rating)
      = some [7]
    ∧ ¬ ((1 : Int) ≤ 7 ∧ (7 : Int) ≤ 5) := by
  constructor
  · rfl
  · decide

/-- C1 amended: `add_media` persists the submitted rating verbatim — the
rating of the media row equals whatever integer the form carried, with no range
check or clamping (only a missing required field is rejected, by the NOT
NULL constraint). -/
theorem add_media_stores_rating_verbatim (db : DB) (t ty : String) (r : Int)
    (rv : Option String) :
    ((media_post db { MediaForm.empty with
        action := some "add_media"
        title := some t
        media_type := some ty
        rating := some r
        review := rv }).toOption.map fun d => d.media.map Media.rating)
      = some (db.media.map Media.rating ++ [r]) := by
  simp [media_post, MediaForm.empty, Except.toOption]

/-! ### C3: validation is non-fatal everywhere except add_reward -/

/-- C3 counterexample: an `add_reward` POST without a `reward_name` field
binds NULL into the NOT NULL `name` column; the `sqlite3.IntegrityError`
is not caught, so the request aborts with an unhandled error. -/
theorem add_reward_missing_name_fatal :
    (dashboard_post emptyDB 1 0 { Form.empty with
        action := some "add_reward"
        requirement_type := some "streak"
        requirement_value := some 5 }).isOk = false := by
  rfl

/-- C3 amended: every dashboard action other than `add_reward` handles
invalid input without an unhandled error (empty or duplicate habit names
and zero hours are silently ignored), and signup turns a duplicate
username into a user-facing message; but `add_reward` succeeds exactly
when all three required fields are present — a missing `reward_name`,
`requirement_type` or `requirement_value` raises an uncaught
IntegrityError that aborts the request. -/
theorem validation_nonfatal_except_add_reward :
    (∀ (db : DB) (u today : Int) (f : Form), f.action ≠ some "add_reward" →
      (dashboard_post db u today f).isOk = true)
    ∧ (∀ (db : DB) (u today : Int) (f : Form), f.action = some "add_reward" →
      ((dashboard_post db u today f).isOk = true ↔
        (f.reward_name ≠ none ∧ f.requirement_type ≠ none ∧
          f.requirement_value ≠ none)))
    ∧ (∀ (db : DB) (username password : String), pyStrip username ≠ "" →
        password ≠ "" →
        (db.users.any fun u => u.username == pyStrip username) = true →
        signup db username password = (db, some "Username already exists.")) := by
  refine ⟨?_, ?_, ?_⟩
  · intro db u today f h
    rw [dashboard_post]
    repeat' split
    all_goals rfl
  · intro db u today f h
    rw [dashboard_post_add_reward db u today f h, add_reward_action]
    rcases f with ⟨a, hn, hid, ho, no, st, rn, rt, rv, rid⟩
    rcases rn with _ | n <;> rcases rt with _ | t <;> rcases rv with _ | v <;>
      simp [Except.isOk, Except.toBool]
  · intro db username password hu hp hdup
    simp [signup, hu, hp, hdup]

/-- Witness for `validation_nonfatal_except_add_reward`: an add_habit POST
with an empty name succeeds without error, a fully-filled add_reward
succeeds, and signing up an already-taken username produces the
duplicate-username message. -/
theorem validation_nonfatal_witness :
    (dashboard_post emptyDB 1 0 { Form.empty with
        action := some "add_habit"
        habit_name := some "" }).isOk = true
    ∧ (dashboard_post emptyDB 1 0 { Form.empty with
        action := some "add_reward"
        reward_name := some "tea"
        requirement_type := some "hours"
        requirement_value := some 5 }).isOk = true
    ∧ signup { emptyDB with users := [⟨1, "mia", "pw"⟩] } "mia" "secret"
      = ({ emptyDB with users := [⟨1, "mia", "pw"⟩] },
         some "Username already exists.") :=
  ⟨validation_nonfatal_except_add_reward.1 emptyDB 1 0 _ (by decide),
   (validation_nonfatal_except_add_reward.2.1 emptyDB 1 0 _ rfl).mpr
     (by refine ⟨by decide, by decide, by decide⟩),
   validation_nonfatal_except_add_reward.2.2 _ "mia" "secret" (by decide)
     (by decide) (by decide)⟩

/-! ### C2: entry logging accepts any nonzero hours, not only positive -/

/-- C2 counterexample: with a truthy habit_id, hours = -2.5 (< 0) is
accepted and one habit_entries row is inserted, while hours = 2.5 with the
falsy habit_id 0 inserts nothing; `if habit_id and hours:` rejects only
zero, not negative hours. -/
theorem add_entry_negative_hours_inserted :
    ((dashboard_post emptyDB 1 0 { Form.empty with
        action := some "add_entry"
        habit_id := some 1
        hours := some (-2.5) }).toOption.map
        fun d => d.habit_entries.length) = some 1
    ∧ ((-2.5 : Rat) < 0)
    ∧ ((dashboard_post emptyDB 1 0 { Form.empty with
        action := some "add_entry"
        habit_id := some 0
        hours := some 2.5 }).toOption.map
        fun d => d.habit_entries.length) = some 0 := by
  refine ⟨?_, by norm_num, ?_⟩
  · rw [dashboard_post_add_entry _ _ _ _ rfl]
    norm_num [add_entry_action, Form.empty, emptyDB, Except.toOption]
  · rw [dashboard_post_add_entry _ _ _ _ rfl]
    norm_num [add_entry_action, Form.empty, emptyDB, Except.toOption]

/-- C2 amended: logging requires a truthy habit_id and truthy hours:
hours = 0 inserts no row, but any nonzero hours — negative as well as
positive — inserts exactly one row dated today whose hours value is added
to the daily total of that habit for today. -/
theorem add_entry_truthiness (db : DB) (user_id today habit_id : Int)
    (hours : Rat) (note sticker : Option String)
    (hhid : habit_id ≠ 0) (hh : hours ≠ 0) :
    dashboard_post db user_id today { Form.empty with
        action := some "add_entry"
        habit_id := some habit_id
        hours := some 0
        note := note
        sticker := sticker } = .ok db
    ∧ dashboard_post db user_id today { Form.empty with
        action := some "add_entry"
        habit_id := some habit_id
        hours := some hours
        note := note
        sticker := sticker }
      = .ok { db with habit_entries := db.habit_entries ++
          [⟨nextId (db.habit_entries.map HabitEntry.id), user_id, habit_id,
            today, hours, note.getD "", sticker⟩] }
    ∧ daily_total (db.habit_entries ++
          [⟨nextId (db.habit_entries.map HabitEntry.id), user_id, habit_id,
            today, hours, note.getD "", sticker⟩]) user_id habit_id today
      = daily_total db.habit_entries user_id habit_id today + hours := by
  refine ⟨?_, ?_, ?_⟩
  · rw [dashboard_post_add_entry _ _ _ _ rfl]
    simp [add_entry_action]
  · rw [dashboard_post_add_entry _ _ _ _ rfl]
    simp [add_entry_action, hhid, hh]
  · simp [daily_total, List.filter_append]

/-- Witness for `add_entry_truthiness` at user 1, habit 1, hours 2.5 on an
empty database. -/
theorem add_entry_truthiness_witness :
    (1 : Int) ≠ 0 ∧ (2.5 : Rat) ≠ 0
    ∧ (dashboard_post emptyDB 1 0 { Form.empty with
        action := some "add_entry"
        habit_id := some 1
        hours := some 0
        note := none
        sticker := none } = .ok emptyDB
    ∧ dashboard_post emptyDB 1 0 { Form.empty with
        action := some "add_entry"
        habit_id := some 1
        hours := some 2.5
        note := none
        sticker := none }
      = .ok { emptyDB with habit_entries := emptyDB.habit_entries ++
          [⟨nextId (emptyDB.habit_entries.map HabitEntry.id), 1, 1,
            0, 2.5, Option.getD none "", none⟩] }
    ∧ daily_total (emptyDB.habit_entries ++
          [⟨nextId (emptyDB.habit_entries.map HabitEntry.id), 1, 1,
            0, 2.5, Option.getD none "", none⟩]) 1 1 0
      = daily_total emptyDB.habit_entries 1 1 0 + 2.5) :=
  ⟨by norm_num, by norm_num,
   add_entry_truthiness emptyDB 1 0 1 2.5 none none (by norm_num) (by norm_num)⟩

/-! ### C5: delete_habit scoping -/

/-- C5 counterexample: in `crossOwnedDB` habit 1 belongs to user 1, yet
the delete_habit request of user 2 for habit 1 is not a no-op — it deletes the
entry row of user 2 for that habit (while leaving the habit row in place). -/
theorem delete_habit_not_owned_not_noop :
    (crossOwnedDB.habits.all fun h => !(h.id == 1 && h.user_id == 2)) = true
    ∧ dashboard_post crossOwnedDB 2 0 { Form.empty with
        action := some "delete_habit"
        habit_id := some 1 }
      = .ok { crossOwnedDB with habit_entries := [] }
    ∧ crossOwnedDB.habit_entries ≠ [] := by
  refine ⟨by decide, ?_, by decide⟩
  rw [dashboard_post_delete_habit _ _ _ _ rfl]
  rfl

/-- C5 amended: delete_habit removes the habit row only when this user owns
it, and removes exactly the habit_entries rows carrying both the given
habit_id and the id of the requesting user: entries other users logged against
that habit survive (orphan entries can remain after the owner deletes the
habit), and a request by a non-owner still deletes the entries of that non-owner
for that habit_id, so it is not a no-op in general; if the habit is not
owned by the requester the habits table itself is unchanged. -/
theorem delete_habit_scoped (db : DB) (user_id today habit_id : Int)
    (hhid : habit_id ≠ 0) :
    dashboard_post db user_id today { Form.empty with
        action := some "delete_habit"
        habit_id := some habit_id }
      = .ok { db with
          habit_entries := db.habit_entries.filter fun e =>
            !(e.habit_id == habit_id && e.user_id == user_id)
          habits := db.habits.filter fun h =>
            !(h.id == habit_id && h.user_id == user_id) }
    ∧ ((db.habits.all fun h => !(h.id == habit_id && h.user_id == user_id)) = true →
        (db.habits.filter fun h =>
          !(h.id == habit_id && h.user_id == user_id)) = db.habits)
    ∧ ∀ e ∈ db.habit_entries, e.user_id ≠ user_id →
        e ∈ db.habit_entries.filter fun e2 =>
          !(e2.habit_id == habit_id && e2.user_id == user_id) := by
  refine ⟨?_, ?_, ?_⟩
  · rw [dashboard_post_delete_habit _ _ _ _ rfl]
    simp [delete_habit_action, hhid]
  · intro hall
    rw [List.filter_eq_self]
    exact List.all_eq_true.mp hall
  · intro e he hne
    rw [List.mem_filter]
    refine ⟨he, ?_⟩
    simp [hne]

/-- Witness for `delete_habit_scoped`: user 2 deleting habit 1 in
`crossOwnedDB`. -/
theorem delete_habit_scoped_witness :
    (1 : Int) ≠ 0
    ∧ (dashboard_post crossOwnedDB 2 0 { Form.empty with
        action := some "delete_habit"
        habit_id := some 1 }
      = .ok { crossOwnedDB with
          habit_entries := crossOwnedDB.habit_entries.filter fun e =>
            !(e.habit_id == 1 && e.user_id == 2)
          habits := crossOwnedDB.habits.filter fun h =>
            !(h.id == 1 && h.user_id == 2) }
    ∧ ((crossOwnedDB.habits.all fun h => !(h.id == 1 && h.user_id == 2)) = true →
        (crossOwnedDB.habits.filter fun h =>
          !(h.id == 1 && h.user_id == 2)) = crossOwnedDB.habits)
    ∧ ∀ e ∈ crossOwnedDB.habit_entries, e.user_id ≠ 2 →
        e ∈ crossOwnedDB.habit_entries.filter fun e2 =>
          !(e2.habit_id == 1 && e2.user_id == 2)) :=
  ⟨by decide, delete_habit_scoped crossOwnedDB 2 0 1 (by decide)⟩

/-! ### C6: add_habit deduplication -/

/-- C6: adding a habit whose (stripped) name is empty or already owned by
this user leaves the database unchanged — the duplicate is silently
swallowed, not an error — while a non-empty name not yet owned inserts
exactly one habit row for this user. -/
theorem add_habit_dedup (db : DB) (user_id today : Int) (name : String) :
    (pyStrip name = "" →
      dashboard_post db user_id today { Form.empty with
        action := some "add_habit"
        habit_name := some name } = .ok db)
    ∧ ((db.habits.any fun h =>
          h.user_id == user_id && h.name == pyStrip name) = true →
      dashboard_post db user_id today { Form.empty with
        action := some "add_habit"
        habit_name := some name } = .ok db)
    ∧ (pyStrip name ≠ "" →
      (db.habits.any fun h =>
          h.user_id == user_id && h.name == pyStrip name) = false →
      dashboard_post db user_id today { Form.empty with
        action := some "add_habit"
        habit_name := some name }
        = .ok { db with habits := db.habits ++
            [⟨nextId (db.habits.map Habit.id), user_id, pyStrip name⟩] }) := by
  refine ⟨?_, ?_, ?_⟩
  · intro hempty
    rw [dashboard_post_add_habit _ _ _ _ rfl]
    simp [add_habit_action, hempty]
  · intro hdup
    rw [dashboard_post_add_habit _ _ _ _ rfl]
    by_cases hn : pyStrip name = "" <;> simp [add_habit_action, hn, hdup]
  · intro hn hdup
    rw [dashboard_post_add_habit _ _ _ _ rfl]
    simp [add_habit_action, hn, hdup]

/-- Witness for `add_habit_dedup`: inserting "  read " (strips to "read")
into an empty database, then observing that repeating it is a no-op. -/
theorem add_habit_dedup_witness :
    (pyStrip "  read " ≠ ""
      ∧ (emptyDB.habits.any fun h =>
          h.user_id == 1 && h.name == pyStrip "  read ") = false)
    ∧ dashboard_post emptyDB 1 0 { Form.empty with
        action := some "add_habit"
        habit_name := some "  read " }
      = .ok { emptyDB with habits := emptyDB.habits ++
          [⟨nextId (emptyDB.habits.map Habit.id), 1, pyStrip "  read "⟩] } :=
  ⟨⟨by decide, by decide⟩,
   (add_habit_dedup emptyDB 1 0 "  read ").2.2 (by decide) (by decide)⟩

/-! ### Streak loop lemmas -/

theorem streakAux_hasEntry (entries : List HabitEntry) (user_id : Int) :
    ∀ (fuel : Nat) (d : Int) (k : Nat), k < streakAux entries user_id fuel d →
      hasEntry entries user_id (d - k) = true := by
  intro fuel
  induction fuel with
  | zero => intro d k hk; simp [streakAux] at hk
  | succ n ih =>
    intro d k hk
    by_cases hd : hasEntry entries user_id d
    · rw [streakAux, if_pos hd] at hk
      cases k with
      | zero => simpa using hd
      | succ j =>
        have h2 := ih (d - 1) j (Nat.lt_of_succ_lt_succ hk)
        have e2 : d - 1 - (j : Int) = d - ((j : Int) + 1) := by ring
        rw [e2] at h2
        push_cast
        exact h2
    · rw [streakAux, if_neg hd] at hk
      exact absurd hk (Nat.not_lt_zero k)

theorem streakAux_stop (entries : List HabitEntry) (user_id : Int) :
    ∀ (fuel : Nat) (d : Int), streakAux entries user_id fuel d < fuel →
      hasEntry entries user_id (d - streakAux entries user_id fuel d) = false := by
  intro fuel
  induction fuel with
  | zero => intro d h; exact absurd h (Nat.not_lt_zero _)
  | succ n ih =>
    intro d h
    by_cases hd : hasEntry entries user_id d
    · rw [streakAux, if_pos hd] at h ⊢
      have h2 := ih (d - 1) (Nat.lt_of_succ_lt_succ h)
      have e2 : d - 1 - (streakAux entries user_id n (d - 1) : Int)
          = d - ((streakAux entries user_id n (d - 1) : Int) + 1) := by ring
      rw [e2] at h2
      push_cast
      exact h2
    · rw [streakAux, if_neg hd]
      simpa using hd

theorem streakAux_stable (entries : List HabitEntry) (user_id : Int) :
    ∀ (fuel fuel2 : Nat) (d : Int), streakAux entries user_id fuel d < fuel →
      fuel ≤ fuel2 →
      streakAux entries user_id fuel2 d = streakAux entries user_id fuel d := by
  intro fuel
  induction fuel with
  | zero => intro fuel2 d h; exact absurd h (Nat.not_lt_zero _)
  | succ n ih =>
    intro fuel2 d h hle
    obtain ⟨m, rfl⟩ : ∃ m, fuel2 = m + 1 := ⟨fuel2 - 1, by omega⟩
    by_cases hd : hasEntry entries user_id d
    · rw [streakAux, if_pos hd] at h ⊢
      rw [streakAux, if_pos hd]
      have h2 := ih m (d - 1) (Nat.lt_of_succ_lt_succ h) (by omega)
      omega
    · rw [streakAux, if_neg hd, streakAux, if_neg hd]

theorem hasEntry_mem_userDates (entries : List HabitEntry) (user_id d : Int)
    (h : hasEntry entries user_id d = true) : d ∈ userDates entries user_id := by
  rw [hasEntry, List.any_eq_true] at h
  obtain ⟨e, he, hmatch⟩ := h
  simp only [Bool.and_eq_true, beq_iff_eq] at hmatch
  simp only [userDates, List.mem_dedup, List.mem_map, List.mem_filter]
  exact ⟨e, ⟨he, by simp [hmatch.1]⟩, hmatch.2⟩

theorem streakAux_le_card (entries : List HabitEntry) (user_id : Int)
    (fuel : Nat) (d : Int) :
    streakAux entries user_id fuel d ≤ (userDates entries user_id).length := by
  have hsubset : ((List.range (streakAux entries user_id fuel d)).map
      fun (k : Nat) => d - (k : Int)) ⊆ userDates entries user_id := by
    intro x hx
    simp only [List.mem_map, List.mem_range] at hx
    obtain ⟨k, hk, rfl⟩ := hx
    exact hasEntry_mem_userDates entries user_id _
      (streakAux_hasEntry entries user_id fuel d k hk)
  have hnodup : ((List.range (streakAux entries user_id fuel d)).map
      fun (k : Nat) => d - (k : Int)).Nodup := by
    refine List.Nodup.map ?_ (List.nodup_range _)
    intro a b hab
    simp only at hab
    omega
  have hlen := (List.subperm_of_subset hnodup hsubset).length_le
  simpa using hlen

/-! ### C4: streak counts consecutive days with entries, back from today -/

/-- C4: the dashboard streak is exactly the count of consecutive calendar
days, starting with today and stepping backwards, on which the user has at
least one entry: every day strictly within the streak has an entry, the
first day past the streak has none (a gap stops the count), and the streak
is 0 precisely when there is no entry dated today. -/
theorem streak_consecutive_days (entries : List HabitEntry) (user_id today : Int) :
    ((List.range (streak entries user_id today)).all fun k =>
      hasEntry entries user_id (today - k)) = true
    ∧ hasEntry entries user_id (today - streak entries user_id today) = false
    ∧ (streak entries user_id today = 0 ↔
        hasEntry entries user_id today = false) := by
  have hlt : streak entries user_id today
      < (userDates entries user_id).length + 1 :=
    Nat.lt_succ_of_le (streakAux_le_card entries user_id _ today)
  have hstop : hasEntry entries user_id
      (today - streak entries user_id today) = false :=
    streakAux_stop entries user_id _ today hlt
  refine ⟨?_, hstop, ?_, ?_⟩
  · rw [List.all_eq_true]
    intro k hk
    rw [List.mem_range] at hk
    exact streakAux_hasEntry entries user_id _ today k hk
  · intro h0
    rw [h0] at hstop
    simpa using hstop
  · intro hf
    rw [streak, streakAux, if_neg ?_]
    rw [hf]
    exact Bool.false_ne_true

/-! ### C10: the streak loop terminates within distinct-dates + 1 lookups -/

/-- C10: the backward streak loop stabilises: any fuel of at least (number
of distinct entry dates of the user) + 1 computes the same value, i.e. the
loop performs one successful lookup per streak day plus one final failing
lookup, and the streak — hence the number of successful lookups — is
bounded by the number of distinct entry dates of the user. -/
theorem streak_loop_stable (entries : List HabitEntry) (user_id today : Int)
    (fuel : Nat) (hfuel : (userDates entries user_id).length + 1 ≤ fuel) :
    streakAux entries user_id fuel today = streak entries user_id today
    ∧ streak entries user_id today ≤ (userDates entries user_id).length := by
  have hle := streakAux_le_card entries user_id
    ((userDates entries user_id).length + 1) today
  exact ⟨streakAux_stable entries user_id _ fuel today
    (Nat.lt_succ_of_le hle) hfuel, hle⟩

/-- Witness for `streak_loop_stable`: a one-entry table, generous fuel. -/
theorem streak_loop_stable_witness :
    (userDates [⟨1, 1, 1, 0, 1, "", none⟩] 1).length + 1 ≤ 5
    ∧ (streakAux [⟨1, 1, 1, 0, 1, "", none⟩] 1 5 0
        = streak [⟨1, 1, 1, 0, 1, "", none⟩] 1 0
      ∧ streak [⟨1, 1, 1, 0, 1, "", none⟩] 1 0
        ≤ (userDates [⟨1, 1, 1, 0, 1, "", none⟩] 1).length) :=
  ⟨by decide, streak_loop_stable [⟨1, 1, 1, 0, 1, "", none⟩] 1 0 5 (by decide)⟩

/-! ### C8: add_entry checks neither existence nor ownership of the habit -/

theorem streak_pos_of_hasEntry (entries : List HabitEntry) (user_id today : Int)
    (h : hasEntry entries user_id today = true) :
    1 ≤ streak entries user_id today := by
  rw [streak, streakAux, if_pos h]
  omega

/-- C8: add_entry consults only the form, never the habits table: for any
habits table whatsoever, a truthy habit_id and nonzero hours insert a
habit_entries row carrying the session user id and that habit_id — even
when no such habit exists or it belongs to a different user — and that row
immediately counts toward the streak of that user (streak ≥ 1 for today). -/
theorem add_entry_no_ownership_check (db : DB) (user_id today habit_id : Int)
    (hours : Rat) (note sticker : Option String)
    (hhid : habit_id ≠ 0) (hh : hours ≠ 0) :
    dashboard_post db user_id today { Form.empty with
        action := some "add_entry"
        habit_id := some habit_id
        hours := some hours
        note := note
        sticker := sticker }
      = .ok { db with habit_entries := db.habit_entries ++
          [⟨nextId (db.habit_entries.map HabitEntry.id), user_id, habit_id,
            today, hours, note.getD "", sticker⟩] }
    ∧ hasEntry (db.habit_entries ++
          [⟨nextId (db.habit_entries.map HabitEntry.id), user_id, habit_id,
            today, hours, note.getD "", sticker⟩]) user_id today = true
    ∧ 1 ≤ streak (db.habit_entries ++
          [⟨nextId (db.habit_entries.map HabitEntry.id), user_id, habit_id,
            today, hours, note.getD "", sticker⟩]) user_id today := by
  have hmem : hasEntry (db.habit_entries ++
      [⟨nextId (db.habit_entries.map HabitEntry.id), user_id, habit_id,
        today, hours, note.getD "", sticker⟩]) user_id today = true := by
    simp [hasEntry, List.any_append]
  refine ⟨?_, hmem, streak_pos_of_hasEntry _ _ _ hmem⟩
  rw [dashboard_post_add_entry _ _ _ _ rfl]
  simp [add_entry_action, hhid, hh]

/-- Witness for `add_entry_no_ownership_check`: in `crossOwnedDB` habit 1
exists but belongs to user 1; user 2 logs 2.5 hours against it anyway. -/
theorem add_entry_no_ownership_check_witness :
    (1 : Int) ≠ 0 ∧ (2.5 : Rat) ≠ 0
    ∧ (dashboard_post crossOwnedDB 2 0 { Form.empty with
        action := some "add_entry"
        habit_id := some 1
        hours := some 2.5
        note := none
        sticker := none }
      = .ok { crossOwnedDB with habit_entries := crossOwnedDB.habit_entries ++
          [⟨nextId (crossOwnedDB.habit_entries.map HabitEntry.id), 2, 1,
            0, 2.5, Option.getD none "", none⟩] }
    ∧ hasEntry (crossOwnedDB.habit_entries ++
          [⟨nextId (crossOwnedDB.habit_entries.map HabitEntry.id), 2, 1,
            0, 2.5, Option.getD none "", none⟩]) 2 0 = true
    ∧ 1 ≤ streak (crossOwnedDB.habit_entries ++
          [⟨nextId (crossOwnedDB.habit_entries.map HabitEntry.id), 2, 1,
            0, 2.5, Option.getD none "", none⟩]) 2 0) :=
  ⟨by norm_num, by norm_num,
   add_entry_no_ownership_check crossOwnedDB 2 0 1 2.5 none none
     (by norm_num) (by norm_num)⟩

/-! ### C7: reflections are an upsert keyed by (user, date) -/

/-- One reflection save with a present mood always succeeds and leaves
exactly one reflections row for this (user, date), carrying the saved
fields, provided the UNIQUE(user_id, entry_date) invariant held before. -/
theorem reflection_post_upsert (db : DB) (user_id today : Int)
    (t w i : Option String) (m : String)
    (hinv : (reflections_for db user_id today).length ≤ 1) :
    ∃ db2 : DB, reflection_post db user_id today t w i (some m) = .ok db2
      ∧ ∃ id : Int,
          reflections_for db2 user_id today = [⟨id, user_id, today, t, w, i, m⟩] := by
  by_cases hx : (db.reflections.any fun r =>
      r.user_id == user_id && r.entry_date == today) = true
  · refine ⟨_, by rw [reflection_post, if_pos hx], ?_⟩
    have hcomm : (reflections_for db user_id today).map (fun r =>
        if r.user_id == user_id && r.entry_date == today then
          { r with reflection_text := t, win := w, improvement := i, mood := m }
        else r)
        = reflections_for { db with reflections := db.reflections.map fun r =>
            if r.user_id == user_id && r.entry_date == today then
              { r with reflection_text := t, win := w, improvement := i, mood := m }
            else r } user_id today := by
      rw [reflections_for, reflections_for, List.filter_map]
      refine (List.map_congr_left ?_).symm.trans (congrArg _ (List.filter_congr ?_))
      · intro r _; rfl
      · intro r _
        by_cases hr : (r.user_id == user_id && r.entry_date == today) = true
        · simp only [Function.comp, hr, if_pos hr]
          simp only [Bool.and_eq_true, beq_iff_eq] at hr
          simp [hr.1, hr.2]
        · simp only [Function.comp, if_neg hr]
    rw [List.any_eq_true] at hx
    obtain ⟨r0, hr0mem, hr0⟩ := hx
    have hmem : r0 ∈ reflections_for db user_id today :=
      List.mem_filter.mpr ⟨hr0mem, hr0⟩
    have hlen1 : (reflections_for db user_id today).length = 1 := by
      have := List.length_pos.mpr (List.ne_nil_of_mem hmem)
      omega
    obtain ⟨r1, hr1⟩ := List.length_eq_one.mp hlen1
    have hr1mem : r1 ∈ reflections_for db user_id today := by
      rw [hr1]; exact List.mem_singleton_self r1
    have hr1match := (List.mem_filter.mp hr1mem).2
    simp only [Bool.and_eq_true, beq_iff_eq] at hr1match
    refine ⟨r1.id, ?_⟩
    rw [← hcomm, hr1]
    simp [hr1match.1, hr1match.2, (List.mem_filter.mp hr1mem).2]
  · refine ⟨_, by rw [reflection_post, if_neg hx], ?_⟩
    refine ⟨nextId (db.reflections.map Reflection.id), ?_⟩
    rw [reflections_for]
    show (db.reflections ++ [_]).filter _ = _
    rw [List.filter_append]
    have hnil : db.reflections.filter (fun r =>
        r.user_id == user_id && r.entry_date == today) = [] := by
      rw [List.filter_eq_nil_iff]
      intro r hr hcontra
      exact hx (List.any_eq_true.mpr ⟨r, hr, hcontra⟩)
    rw [hnil]
    simp

/-- Auxiliary induction for `reflection_upsert`: folding any non-empty list
of saves whose moods are all present ends with exactly one row for the
(user, date) key, holding the fields of the final save. -/
theorem reflection_posts_upsert_aux (user_id today : Int) (last : RefForm) :
    ∀ (saves : List RefForm) (db : DB),
      (reflections_for db user_id today).length ≤ 1 →
      (∀ s ∈ saves, s.mood.isSome = true) →
      saves.getLast? = some last →
      ∃ db2 : DB, reflection_posts db user_id today saves = .ok db2
        ∧ (reflections_for db2 user_id today).length = 1
        ∧ (reflections_for db2 user_id today).map
            (fun r => (r.reflection_text, r.win, r.improvement, some r.mood))
          = [(last.reflection_text, last.win, last.improvement, last.mood)] := by
  intro saves
  induction saves with
  | nil => intro db _ _ hlast; simp at hlast
  | cons f fs ih =>
    intro db hinv hmoods hlast
    obtain ⟨m, hm⟩ := Option.isSome_iff_exists.mp
      (hmoods f (List.mem_cons_self f fs))
    obtain ⟨db2, hpost, id0, hsingle⟩ :=
      reflection_post_upsert db user_id today f.reflection_text f.win
        f.improvement m hinv
    have hstep : reflection_posts db user_id today (f :: fs)
        = reflection_posts db2 user_id today fs := by
      rw [reflection_posts, hm, hpost]
    cases fs with
    | nil =>
      have hlf : f = last := by simpa using hlast
      refine ⟨db2, by rw [hstep]; rfl, ?_, ?_⟩
      · rw [hsingle]; rfl
      · rw [hsingle, ← hlf, hm]
        rfl
    | cons g gs =>
      have hlast2 : (g :: gs).getLast? = some last := by
        rw [← List.getLast?_cons_cons (a := f)]
        exact hlast
      have hinv2 : (reflections_for db2 user_id today).length ≤ 1 := by
        rw [hsingle]; exact Nat.le_refl 1
      have hmoods2 : ∀ s ∈ g :: gs, s.mood.isSome = true := fun s hs =>
        hmoods s (List.mem_cons_of_mem f hs)
      obtain ⟨db3, hrun, hlen, hmap⟩ := ih db2 hinv2 hmoods2 hlast2
      exact ⟨db3, by rw [hstep, hrun], hlen, hmap⟩

/-- C7: saving a reflection is an upsert keyed by (user, date): starting
from any database satisfying the UNIQUE(user_id, entry_date) invariant,
after any non-empty sequence of saves by the same user on the same date
exactly one reflections row exists for that key, and its reflection_text,
win, improvement and mood fields equal the values of the most recent save —
earlier fields are fully overwritten. -/
theorem reflection_upsert (db : DB) (user_id today : Int)
    (saves : List RefForm) (last : RefForm)
    (hinv : (reflections_for db user_id today).length ≤ 1)
    (hmoods : ∀ s ∈ saves, s.mood.isSome = true)
    (hlast : saves.getLast? = some last) :
    ∃ db2 : DB, reflection_posts db user_id today saves = .ok db2
      ∧ (reflections_for db2 user_id today).length = 1
      ∧ (reflections_for db2 user_id today).map
          (fun r => (r.reflection_text, r.win, r.improvement, some r.mood))
        = [(last.reflection_text, last.win, last.improvement, last.mood)] :=
  reflection_posts_upsert_aux user_id today last saves db hinv hmoods hlast

/-- Witness for `reflection_upsert`: two saves on the same day; the second
fields of the second save win. -/
theorem reflection_upsert_witness :
    ((reflections_for emptyDB 1 0).length ≤ 1
      ∧ (∀ s ∈ [(⟨some "a", none, none, some "happy"⟩ : RefForm),
          ⟨some "b", some "w", none, some "calm"⟩], s.mood.isSome = true)
      ∧ ([(⟨some "a", none, none, some "happy"⟩ : RefForm),
          ⟨some "b", some "w", none, some "calm"⟩].getLast?
        = some ⟨some "b", some "w", none, some "calm"⟩))
    ∧ ∃ db2 : DB, reflection_posts emptyDB 1 0
        [⟨some "a", none, none, some "happy"⟩,
         ⟨some "b", some "w", none, some "calm"⟩] = .ok db2
      ∧ (reflections_for db2 1 0).length = 1
      ∧ (reflections_for db2 1 0).map
          (fun r => (r.reflection_text, r.win, r.improvement, some r.mood))
        = [(some "b", some "w", none, some "calm")] :=
  ⟨⟨by decide, by decide, by decide⟩,
   reflection_upsert emptyDB 1 0
     [⟨some "a", none, none, some "happy"⟩,
      ⟨some "b", some "w", none, some "calm"⟩]
     ⟨some "b", some "w", none, some "calm"⟩
     (by decide) (by decide) (by decide)⟩

/-! ### C9: rewards and media are global, unscoped by user -/

/-- C9: reward and media rows are global: unlock_reward sets only the
`unlocked` field of the row with the given id (all other fields and rows
untouched) and its outcome is identical for any two authenticated users;
delete_reward and delete_media drop exactly the row with the given id for
any user; and the reward list of the dashboard contains precisely the rows
of the rewards table. -/
theorem rewards_media_global (db : DB) (u1 u2 today reward_id media_id : Int) :
    dashboard_post db u1 today { Form.empty with
        action := some "unlock_reward"
        reward_id := some reward_id }
      = dashboard_post db u2 today { Form.empty with
        action := some "unlock_reward"
        reward_id := some reward_id }
    ∧ dashboard_post db u1 today { Form.empty with
        action := some "unlock_reward"
        reward_id := some reward_id }
      = .ok { db with rewards := db.rewards.map fun r =>
          if reward_id = r.id then { r with unlocked := 1 } else r }
    ∧ dashboard_post db u1 today { Form.empty with
        action := some "delete_reward"
        reward_id := some reward_id }
      = .ok { db with rewards := db.rewards.filter fun r =>
          !(reward_id == r.id) }
    ∧ media_post db { MediaForm.empty with
        action := some "delete_media"
        media_id := some media_id }
      = .ok { db with media := db.media.filter fun m => !(media_id == m.id) }
    ∧ ∀ r : Reward, r ∈ dashboard_rewards db ↔ r ∈ db.rewards := by
  refine ⟨?_, ?_, ?_, ?_, ?_⟩
  · rw [dashboard_post_unlock_reward _ _ _ _ rfl,
      dashboard_post_unlock_reward _ _ _ _ rfl]
  · rw [dashboard_post_unlock_reward _ _ _ _ rfl]
    simp only [unlock_reward_action, Option.some.injEq]
  · rw [dashboard_post_delete_reward _ _ _ _ rfl]
    simp only [delete_reward_action]
    rfl
  · rw [media_post]
    rfl
  · intro r
    exact (List.mergeSort_perm db.rewards _).mem_iff

end VioletArchive
